import Mathlib

/-!
Verification of the supervised control-loop subsystem of the Asus TUF
hardware-control daemon (src/config.py, src/services/base.py,
src/services/power.py, src/services/thermal.py, src/services/keyboard.py,
src/tuf_utils.py).

Temperatures, delays and wall-clock times are modelled as rationals;
the small integer device codes are modelled as integers.  Each device
operation is modelled as a pure function that returns the list of
underlying pseudo-file operations it performs, so that "which writes
happen" is directly provable.
-/

/-! ## Configuration constants (src/config.py) -/

def FAUSTUS_BASE_PATH : String := "/sys/devices/platform/faustus"

def FAN_CONTROL_PATH : String := FAUSTUS_BASE_PATH ++ "/fan_boost_mode"

def POWER_PROFILE_PATH : String := FAUSTUS_BASE_PATH ++ "/power_profile"

def GPU_POWER_PATH : String := FAUSTUS_BASE_PATH ++ "/gpu_power"

def THROTTLE_POLICY_PATH : String := FAUSTUS_BASE_PATH ++ "/throttle_thermal_policy"

/-- Python dict lookup d[k] for the small string-keyed enum dicts of
src/config.py (every key used by the services is present). -/
def dget (d : List (String × Int)) (k : String) : Int :=
  (d.lookup k).getD 0

def FAN_MODES : List (String × Int) :=
  [("normal", 0), ("boost", 1), ("silent", 2)]

def POWER_PROFILES : List (String × Int) :=
  [("balanced", 0), ("performance", 1), ("powersave", 2)]

def GPU_MODES : List (String × Int) :=
  [("eco", 0), ("standard", 1), ("boost", 2)]

def THROTTLE_POLICIES : List (String × Int) :=
  [("normal", 0), ("boost", 1), ("silent", 2)]

def FAN_TEMP_THRESHOLD : ℚ := 75

def FAN_UPDATE_INTERVAL : ℚ := 2

def BATTERY_POLL_INTERVAL : ℚ := 1

def CHARGER_POLL_INTERVAL : ℚ := 1/10

def CPU_UPDATE_INTERVAL : ℚ := 1/2

def MAX_RETRIES : Nat := 3

def INITIAL_RETRY_DELAY : ℚ := 1

/-! ## Device file operations

A `DevOp` records one underlying pseudo-file operation performed by a
gateway method.  The source writes the decimal string `str(value)`; we
record the integer value that is stringified. -/

inductive DevOp where
  | writeFile (path : String) (value : Int) : DevOp
  | readFile (path : String) : DevOp
deriving DecidableEq, Repr

def isWriteOp : DevOp → Bool
  | .writeFile _ _ => true
  | .readFile _ => false

def isReadOp : DevOp → Bool
  | .writeFile _ _ => false
  | .readFile _ => true

/-! ## PowerService (src/services/power.py) -/

/-- `PowerService.set_fan_mode` (src/services/power.py lines 51-58): writes
`str(mode)` to `FAN_CONTROL_PATH` unconditionally; it performs no read of
the current value and no comparison before writing. -/
def set_fan_mode (mode : Int) : List DevOp :=
  [.writeFile FAN_CONTROL_PATH mode]

/-- `PowerService.set_power_profile`: unconditional write of `str(profile)`
to `POWER_PROFILE_PATH`. -/
def set_power_profile (profile : Int) : List DevOp :=
  [.writeFile POWER_PROFILE_PATH profile]

/-- `PowerService.set_gpu_mode`: unconditional write of `str(mode)` to
`GPU_POWER_PATH`. -/
def set_gpu_mode (mode : Int) : List DevOp :=
  [.writeFile GPU_POWER_PATH mode]

/-- `ThermalService.set_thermal_throttle_policy` (src/services/thermal.py
lines 54-61): unconditional write of `str(policy)` to
`THROTTLE_POLICY_PATH`. -/
def set_thermal_throttle_policy (policy : Int) : List DevOp :=
  [.writeFile THROTTLE_POLICY_PATH policy]

/-- `PowerService.get_fan_mode` (src/services/power.py lines 42-49):
`int(read)` of the fan control file; on any failure (modelled as `none`)
it returns the default `FAN_MODES["normal"]`. -/
def get_fan_mode (read_result : Option Int) : Int :=
  read_result.getD (dget FAN_MODES "normal")

/-- One evaluation step of the body of `PowerService.auto_fan_control`
(src/services/power.py lines 96-114), with the two gateway reads
abstracted as inputs: `cpu_temp`/`gpu_temp` are the values returned by
`read_temperatures` and `current_mode` the value returned by
`get_fan_mode`.  The result is the fan-mode write the step performs, if
any. -/
def auto_fan_control_step (cpu_temp gpu_temp : ℚ) (current_mode : Int) : Option Int :=
  if max cpu_temp gpu_temp ≥ FAN_TEMP_THRESHOLD ∧ current_mode ≠ dget FAN_MODES "boost" then
    some (dget FAN_MODES "boost")
  else if max cpu_temp gpu_temp < FAN_TEMP_THRESHOLD - 5 ∧ current_mode = dget FAN_MODES "boost" then
    some (dget FAN_MODES "normal")
  else
    none

/-- Numeric normal form of `auto_fan_control_step` after evaluating the
configuration constants (threshold 75, boost = 1, normal = 0). -/
lemma auto_fan_control_step_eq (cpu gpu : ℚ) (mode : Int) :
    auto_fan_control_step cpu gpu mode =
      if max cpu gpu ≥ 75 ∧ mode ≠ 1 then some 1
      else if max cpu gpu < 70 ∧ mode = 1 then some 0 else none := by
  have hb : dget FAN_MODES "boost" = 1 := by decide
  have hn : dget FAN_MODES "normal" = 0 := by decide
  have hth : FAN_TEMP_THRESHOLD = 75 := by decide
  have h5 : FAN_TEMP_THRESHOLD - 5 = 70 := by rw [hth]; norm_num
  unfold auto_fan_control_step
  rw [hb, hn, h5, hth]

/-- `PowerService.optimize_power_settings` (src/services/power.py lines
116-139): the list of device writes performed for one call, given the two
boolean inputs. -/
def optimize_power_settings (on_battery performance_mode : Bool) : List DevOp :=
  if on_battery then
    set_power_profile (dget POWER_PROFILES "powersave") ++
    set_gpu_mode (dget GPU_MODES "eco") ++
    (if ¬performance_mode then set_fan_mode (dget FAN_MODES "silent") else [])
  else if performance_mode then
    set_power_profile (dget POWER_PROFILES "performance") ++
    set_gpu_mode (dget GPU_MODES "boost") ++
    set_fan_mode (dget FAN_MODES "boost")
  else
    set_power_profile (dget POWER_PROFILES "balanced") ++
    set_gpu_mode (dget GPU_MODES "standard") ++
    set_fan_mode (dget FAN_MODES "normal")

/-! ## Theorems for claims C1, C10 -/

/-- Claim C1: one evaluation step of auto fan control with
maxTemp = max(cpuC, gpuC) sets fan mode to boost iff maxTemp ≥ 75 and the
current mode is not boost, sets fan mode to normal iff maxTemp < 70 and
the current mode is boost, and performs no fan write at all in the dead
band 70 ≤ maxTemp < 75 or when neither guard fires. -/
theorem auto_fan_control_hysteresis (cpu gpu : ℚ) (mode : Int) :
    (auto_fan_control_step cpu gpu mode = some (dget FAN_MODES "boost") ↔
      max cpu gpu ≥ 75 ∧ mode ≠ dget FAN_MODES "boost") ∧
    (auto_fan_control_step cpu gpu mode = some (dget FAN_MODES "normal") ↔
      max cpu gpu < 70 ∧ mode = dget FAN_MODES "boost") ∧
    (70 ≤ max cpu gpu ∧ max cpu gpu < 75 →
      auto_fan_control_step cpu gpu mode = none) ∧
    (¬(max cpu gpu ≥ 75 ∧ mode ≠ dget FAN_MODES "boost") ∧
     ¬(max cpu gpu < 70 ∧ mode = dget FAN_MODES "boost") →
      auto_fan_control_step cpu gpu mode = none) := by
  have hb : dget FAN_MODES "boost" = 1 := by decide
  have hn : dget FAN_MODES "normal" = 0 := by decide
  rw [hb, hn, auto_fan_control_step_eq]
  by_cases h1 : max cpu gpu ≥ 75 ∧ mode ≠ (1 : Int)
  · rw [if_pos h1]
    refine ⟨by simp [h1], ?_, ?_, ?_⟩
    · constructor
      · intro h
        exact absurd (Option.some.inj h) (by norm_num)
      · rintro ⟨_, hm⟩
        exact absurd hm h1.2
    · rintro ⟨_, hlt⟩
      exact absurd h1.1 (not_le.mpr hlt)
    · rintro ⟨hc, _⟩
      exact absurd h1 hc
  · rw [if_neg h1]
    by_cases h2 : max cpu gpu < 70 ∧ mode = (1 : Int)
    · rw [if_pos h2]
      refine ⟨?_, by simp [h2], ?_, ?_⟩
      · constructor
        · intro h
          exact absurd (Option.some.inj h) (by norm_num)
        · intro h
          exact absurd h h1
      · rintro ⟨hge, _⟩
        exact absurd h2.1 (not_lt.mpr hge)
      · rintro ⟨_, hc⟩
        exact absurd h2 hc
    · rw [if_neg h2]
      exact ⟨iff_of_false (by simp) h1, iff_of_false (by simp) h2,
        fun _ => rfl, fun _ => rfl⟩

/-- Witness for C1 at a concrete dead-band input: maxTemp = 72 while in
boost mode performs no write. -/
theorem auto_fan_control_hysteresis_witness :
    (70 ≤ max (72 : ℚ) 60 ∧ max (72 : ℚ) 60 < 75) ∧
    auto_fan_control_step 72 60 1 = none := by
  have hm : max (72 : ℚ) 60 = 72 := max_eq_left (by norm_num)
  have h : (70 ≤ max (72 : ℚ) 60 ∧ max (72 : ℚ) 60 < 75) := by
    rw [hm]; norm_num
  exact ⟨h, (auto_fan_control_hysteresis 72 60 1).2.2.1 h⟩

/-- Claim C10: every value auto fan control ever writes to the fan
control path is boost (1) or normal (0); it never writes silent (2), for
all temperatures and all current modes, including the default mode
`get_fan_mode` returns when the fan-mode read fails. -/
theorem auto_fan_control_write_range (cpu gpu : ℚ) (read_result : Option Int) (v : Int)
    (h : auto_fan_control_step cpu gpu (get_fan_mode read_result) = some v) :
    (v = dget FAN_MODES "boost" ∨ v = dget FAN_MODES "normal") ∧
    v ≠ dget FAN_MODES "silent" := by
  rw [auto_fan_control_step_eq] at h
  split_ifs at h with hc1 hc2
  · obtain rfl : (1 : Int) = v := Option.some.inj h
    exact ⟨Or.inl (by decide), by decide⟩
  · obtain rfl : (0 : Int) = v := Option.some.inj h
    exact ⟨Or.inr (by decide), by decide⟩

/-- Witness for C10: with a failed fan-mode read (default mode normal) and
an 80°C CPU, the step writes 1, which is boost and not silent. -/
theorem auto_fan_control_write_range_witness :
    auto_fan_control_step 80 0 (get_fan_mode none) = some 1 ∧
    (((1 : Int) = dget FAN_MODES "boost" ∨ (1 : Int) = dget FAN_MODES "normal") ∧
      (1 : Int) ≠ dget FAN_MODES "silent") := by
  have hstep : auto_fan_control_step 80 0 (get_fan_mode none) = some 1 := by
    have hg : get_fan_mode none = 0 := by decide
    rw [hg, auto_fan_control_step_eq]
    rw [if_pos ⟨le_trans (by norm_num) (le_max_left (80 : ℚ) 0), by decide⟩]
  exact ⟨hstep, auto_fan_control_write_range 80 0 none 1 hstep⟩

/-! ## Theorems for claims C2, C4 -/

/-- The decision table of spec §4.2, written from the claim: per
(onBattery, performanceMode) combination the profile, gpu and fan values
written, with no fan write at all for performance-mode-on-battery. -/
def optimize_power_settings_table (on_battery performance_mode : Bool) : List DevOp :=
  match on_battery, performance_mode with
  | true, false =>
      [.writeFile POWER_PROFILE_PATH (dget POWER_PROFILES "powersave"),
       .writeFile GPU_POWER_PATH (dget GPU_MODES "eco"),
       .writeFile FAN_CONTROL_PATH (dget FAN_MODES "silent")]
  | true, true =>
      [.writeFile POWER_PROFILE_PATH (dget POWER_PROFILES "powersave"),
       .writeFile GPU_POWER_PATH (dget GPU_MODES "eco")]
  | false, true =>
      [.writeFile POWER_PROFILE_PATH (dget POWER_PROFILES "performance"),
       .writeFile GPU_POWER_PATH (dget GPU_MODES "boost"),
       .writeFile FAN_CONTROL_PATH (dget FAN_MODES "boost")]
  | false, false =>
      [.writeFile POWER_PROFILE_PATH (dget POWER_PROFILES "balanced"),
       .writeFile GPU_POWER_PATH (dget GPU_MODES "standard"),
       .writeFile FAN_CONTROL_PATH (dget FAN_MODES "normal")]

/-- Claim C2: for all four boolean combinations, `optimize_power_settings`
performs exactly the writes of the decision table, including the absence
of any fan write in the performance-mode-on-battery case. -/
theorem optimize_power_settings_matches_table :
    ∀ on_battery performance_mode : Bool,
      optimize_power_settings on_battery performance_mode =
        optimize_power_settings_table on_battery performance_mode := by
  decide

/-- Counterexample for claim C4 as stated: calling `set_fan_mode` twice
with the same target performs two underlying writes, not exactly one, and
the second call performs no read of the current value. -/
theorem set_twice_single_write_counterexample :
    ¬((set_fan_mode 1 ++ set_fan_mode 1).countP isWriteOp = 1 ∧
      (set_fan_mode 1 ++ set_fan_mode 1).countP isReadOp ≥ 1) := by
  decide

/-- Claim C4 as amended: every "set" operation (fan mode, power profile,
GPU mode, throttle policy) writes unconditionally; for every target value,
calling it twice in succession performs exactly two underlying file writes
and zero reads of the current value.  (The redundant-write suppression the
spec describes lives in the callers, which compare a previously read
current value before invoking the set operation.) -/
theorem set_ops_always_write (target : Int) :
    (set_fan_mode target ++ set_fan_mode target).countP isWriteOp = 2 ∧
    (set_fan_mode target ++ set_fan_mode target).countP isReadOp = 0 ∧
    (set_power_profile target ++ set_power_profile target).countP isWriteOp = 2 ∧
    (set_power_profile target ++ set_power_profile target).countP isReadOp = 0 ∧
    (set_gpu_mode target ++ set_gpu_mode target).countP isWriteOp = 2 ∧
    (set_gpu_mode target ++ set_gpu_mode target).countP isReadOp = 0 ∧
    (set_thermal_throttle_policy target ++ set_thermal_throttle_policy target).countP isWriteOp = 2 ∧
    (set_thermal_throttle_policy target ++ set_thermal_throttle_policy target).countP isReadOp = 0 := by
  refine ⟨?_, ?_, ?_, ?_, ?_, ?_, ?_, ?_⟩ <;>
    simp [set_fan_mode, set_power_profile, set_gpu_mode, set_thermal_throttle_policy,
      List.countP_cons, List.countP_nil, isWriteOp, isReadOp]

/-! ## ThermalService (src/services/thermal.py) -/

/-- `ThermalService.update_thermal_policy` (src/services/thermal.py lines
63-87), with its four reads abstracted as inputs: `on_battery` from
`is_on_battery`, `current_policy` from `read_thermal_throttle_policy`,
`gamemode` from `read_gamemode`, and `clang_running` for
`scanAllProcessesForMapping("clang") != {}`.  The result is the list of
throttle-policy writes performed (the best-effort `sysctl` tuning
side-effect is outside the claim and not recorded). -/
def update_thermal_policy (on_battery : Bool) (current_policy gamemode : Int)
    (clang_running : Bool) : List DevOp :=
  if on_battery then
    if current_policy ≠ dget THROTTLE_POLICIES "silent" then
      set_thermal_throttle_policy (dget THROTTLE_POLICIES "silent")
    else []
  else if gamemode = 1 then
    if current_policy ≠ dget THROTTLE_POLICIES "boost" then
      set_thermal_throttle_policy (dget THROTTLE_POLICIES "boost")
    else []
  else if clang_running then
    set_thermal_throttle_policy (dget THROTTLE_POLICIES "boost")
  else if current_policy ≠ dget THROTTLE_POLICIES "normal" then
    set_thermal_throttle_policy (dget THROTTLE_POLICIES "normal")
  else []

/-- Claim C3: one call of `update_thermal_policy` writes silent iff on
battery with current ≠ silent; writes boost iff off battery and either
gamemode = 1 with current ≠ boost, or gamemode ≠ 1 with a "clang" process
running (this branch writes even when current is already boost); writes
normal iff off battery, gamemode ≠ 1, no matching process and
current ≠ normal; and performs no throttle-policy write in every other
case. -/
theorem update_thermal_policy_rule (on_battery : Bool) (current_policy gamemode : Int)
    (clang_running : Bool) :
    (update_thermal_policy on_battery current_policy gamemode clang_running =
        set_thermal_throttle_policy (dget THROTTLE_POLICIES "silent") ↔
      on_battery = true ∧ current_policy ≠ dget THROTTLE_POLICIES "silent") ∧
    (update_thermal_policy on_battery current_policy gamemode clang_running =
        set_thermal_throttle_policy (dget THROTTLE_POLICIES "boost") ↔
      on_battery = false ∧
        ((gamemode = 1 ∧ current_policy ≠ dget THROTTLE_POLICIES "boost") ∨
         (gamemode ≠ 1 ∧ clang_running = true))) ∧
    (update_thermal_policy on_battery current_policy gamemode clang_running =
        set_thermal_throttle_policy (dget THROTTLE_POLICIES "normal") ↔
      on_battery = false ∧ gamemode ≠ 1 ∧ clang_running = false ∧
        current_policy ≠ dget THROTTLE_POLICIES "normal") ∧
    (update_thermal_policy on_battery current_policy gamemode clang_running = [] ↔
      (on_battery = true ∧ current_policy = dget THROTTLE_POLICIES "silent") ∨
      (on_battery = false ∧ gamemode = 1 ∧ current_policy = dget THROTTLE_POLICIES "boost") ∨
      (on_battery = false ∧ gamemode ≠ 1 ∧ clang_running = false ∧
        current_policy = dget THROTTLE_POLICIES "normal")) := by
  have hs : dget THROTTLE_POLICIES "silent" = 2 := by decide
  have hbo : dget THROTTLE_POLICIES "boost" = 1 := by decide
  have hno : dget THROTTLE_POLICIES "normal" = 0 := by decide
  simp only [update_thermal_policy, set_thermal_throttle_policy, hs, hbo, hno]
  cases on_battery <;> cases clang_running <;>
    by_cases hg : gamemode = 1 <;>
    by_cases h2 : current_policy = 2 <;>
    by_cases h1 : current_policy = 1 <;>
    by_cases h0 : current_policy = 0 <;>
    simp_all

/-! ## Retry with backoff (src/services/base.py lines 14-30)

The wrapped operation is modelled by `outcomes : Nat -> Except E A`, the
result of its k-th invocation (0-based).  The model returns the overall
result, the number of attempts made, and the list of sleep durations in
order.  `Except.ok none` is the implicit `return None` of the wrapper when
`range(max_retries)` is empty; with the default `MAX_RETRIES = 3` it never
occurs. -/

def retry_loop {E A : Type} (outcomes : Nat → Except E A) (max_retries : Nat)
    (delay : ℚ) (sleeps : List ℚ) (retry : Nat) :
    (remaining : Nat) → Except E (Option A) × Nat × List ℚ
  | 0 => (.ok none, retry, sleeps)
  | remaining + 1 =>
    match outcomes retry with
    | .ok a => (.ok (some a), retry + 1, sleeps)
    | .error e =>
      if retry = max_retries - 1 then (.error e, retry + 1, sleeps)
      else retry_loop outcomes max_retries (delay * 2) (sleeps ++ [delay]) (retry + 1) remaining

/-- `retry_with_backoff` (src/services/base.py lines 14-30): run the
`for retry in range(max_retries)` loop with the initial delay. -/
def retry_with_backoff {E A : Type} (outcomes : Nat → Except E A)
    (max_retries : Nat) (initial_delay : ℚ) : Except E (Option A) × Nat × List ℚ :=
  retry_loop outcomes max_retries initial_delay [] 0 max_retries

/-- Claim C5: with the default configuration (MAX_RETRIES = 3,
INITIAL_RETRY_DELAY = 1.0s), the operation is attempted at most 3 times;
a failure on attempt k < 3 is followed by a sleep of 1.0 * 2^(k-1)
seconds (so 1.0s then 2.0s); a successful attempt returns its result
immediately; and when all 3 attempts fail the final error is re-raised
(the `IOFailure` surfaced to the caller), not swallowed. -/
theorem retry_with_backoff_spec {E A : Type} (outcomes : Nat → Except E A) :
    ((retry_with_backoff outcomes MAX_RETRIES INITIAL_RETRY_DELAY).2.1 ≤ 3) ∧
    (∀ a, outcomes 0 = .ok a →
      retry_with_backoff outcomes MAX_RETRIES INITIAL_RETRY_DELAY = (.ok (some a), 1, [])) ∧
    (∀ e0 a, outcomes 0 = .error e0 → outcomes 1 = .ok a →
      retry_with_backoff outcomes MAX_RETRIES INITIAL_RETRY_DELAY = (.ok (some a), 2, [1])) ∧
    (∀ e0 e1 a, outcomes 0 = .error e0 → outcomes 1 = .error e1 → outcomes 2 = .ok a →
      retry_with_backoff outcomes MAX_RETRIES INITIAL_RETRY_DELAY = (.ok (some a), 3, [1, 2])) ∧
    (∀ e0 e1 e2, outcomes 0 = .error e0 → outcomes 1 = .error e1 → outcomes 2 = .error e2 →
      retry_with_backoff outcomes MAX_RETRIES INITIAL_RETRY_DELAY = (.error e2, 3, [1, 2])) := by
  have hnum : (1 : ℚ) * 2 = 2 := by norm_num
  refine ⟨?_, ?_, ?_, ?_, ?_⟩
  · rcases h0 : outcomes 0 with e0 | a0
    · rcases h1 : outcomes 1 with e1 | a1
      · rcases h2 : outcomes 2 with e2 | a2
        · simp [retry_with_backoff, retry_loop, MAX_RETRIES, INITIAL_RETRY_DELAY, h0, h1, h2]
        · simp [retry_with_backoff, retry_loop, MAX_RETRIES, INITIAL_RETRY_DELAY, h0, h1, h2]
      · simp [retry_with_backoff, retry_loop, MAX_RETRIES, INITIAL_RETRY_DELAY, h0, h1]
    · simp [retry_with_backoff, retry_loop, MAX_RETRIES, INITIAL_RETRY_DELAY, h0]
  · intro a h0
    simp [retry_with_backoff, retry_loop, MAX_RETRIES, INITIAL_RETRY_DELAY, h0]
  · intro e0 a h0 h1
    simp [retry_with_backoff, retry_loop, MAX_RETRIES, INITIAL_RETRY_DELAY, h0, h1]
  · intro e0 e1 a h0 h1 h2
    simp [retry_with_backoff, retry_loop, MAX_RETRIES, INITIAL_RETRY_DELAY, h0, h1, h2, hnum]
  · intro e0 e1 e2 h0 h1 h2
    simp [retry_with_backoff, retry_loop, MAX_RETRIES, INITIAL_RETRY_DELAY, h0, h1, h2, hnum]

/-- Witness for C5: an operation that fails once then succeeds makes two
attempts, sleeping 1.0s before the second. -/
theorem retry_with_backoff_spec_witness :
    retry_with_backoff (fun n => if n = 0 then Except.error 0 else Except.ok 5)
        MAX_RETRIES INITIAL_RETRY_DELAY = (.ok (some 5), 2, [1]) :=
  (retry_with_backoff_spec (fun n => if n = 0 then Except.error (0 : Nat) else Except.ok (5 : Nat))).2.2.1
    0 5 rfl rfl

/-! ## Descriptor cache (src/services/base.py lines 46-55, 66-87)

`_file_descriptors` is modelled as an association list from path to a
handle id.  `_get_cached_file` consults the dict and, in the cached
branch, rewinds with seek(0); in the uncached branch it opens a fresh
handle for the duration of the call.  Crucially the source never inserts
into `_file_descriptors` in either branch, so the cache returned is the
cache passed in. -/

def get_cached_file (fds : List (String × Nat)) (filepath : String) :
    Bool × List (String × Nat) :=
  if (fds.lookup filepath).isSome then (true, fds) else (false, fds)

/-- One successful `_read_from_file` or `_write_to_file` call on the given
cache: returns whether a cached handle was reused (as opposed to a fresh
`open`) and the cache after the call. -/
def file_access (fds : List (String × Nat)) (filepath : String) :
    Bool × List (String × Nat) :=
  get_cached_file fds filepath

/-- A sequence of successful reads/writes, returning per-operation reuse
flags and the final cache. -/
def run_file_ops (fds : List (String × Nat)) :
    List String → List Bool × List (String × Nat)
  | [] => ([], fds)
  | p :: rest =>
    let r := file_access fds p
    let rec' := run_file_ops r.2 rest
    (r.1 :: rec'.1, rec'.2)

/-- Claim C7 support is elsewhere; this theorem settles claim C6: starting
from the empty cache a fresh service holds, no sequence of successful
reads or writes ever populates `_file_descriptors` or reuses a handle —
every access opens a fresh handle, contradicting the claim that the first
successful access caches a handle that later accesses reuse.  In
particular two consecutive reads of "/proc/stat" both open fresh handles
and leave the cache empty. -/
theorem descriptor_cache_never_populated :
    (∀ paths : List String,
      run_file_ops [] paths = (paths.map (fun _ => false), [])) ∧
    run_file_ops [] ["/proc/stat", "/proc/stat"] = ([false, false], []) := by
  have hgen : ∀ paths : List String,
      run_file_ops [] paths = (paths.map (fun _ => false), []) := by
    intro paths
    induction paths with
    | nil => rfl
    | cons p rest ih =>
      simp [run_file_ops, file_access, get_cached_file, ih]
  exact ⟨hgen, hgen ["/proc/stat", "/proc/stat"]⟩

/-! ## KeyboardService CPU utilization (src/services/keyboard.py lines 47-76)

`_calculate_cpu_utilization` is decorated with `@lru_cache(maxsize=1)`.
The cache key is the method's argument tuple `(self,)`, which is the same
on every call, so the cache holds the first call's return value and is
modelled as `Option Int` in the state.  `lru_cache` stores every normal
return, and every path of the body returns normally (all exceptions are
caught inside and converted to `return 0`).

`_last_cpu_stats` is a string-keyed dict; the recompute branch stores the
keys "idle" and "total", while the within-window branch reads the keys
"idle_delta" and "total_delta" with defaults 0 and 1 — keys that are
never stored.

Each call is given the wall-clock `now` (Python `time()`) and `fields`,
the parsed numeric columns of the first `/proc/stat` line after the label
(`none` when reading or parsing raises).  A call returns the utilization,
whether the stat file was read, and the state after the call. -/

structure KbCpuState where
  lru : Option Int
  last_cpu_stats : List (String × ℚ)
  last_cpu_time : ℚ
deriving DecidableEq, Repr

/-- Python dict `d.get(k, dflt)` for the float-valued stats dict. -/
def qget (d : List (String × ℚ)) (k : String) (dflt : ℚ) : ℚ :=
  (d.lookup k).getD dflt

/-- Python `int()` on a float: truncation toward zero. -/
def py_trunc (q : ℚ) : Int :=
  if 0 ≤ q then ⌊q⌋ else ⌈q⌉

/-- The body of `_calculate_cpu_utilization` (run only on an lru-cache
miss): returns (utilization, statFileRead, new stats dict, new last time).
The `total_delta = 0` test models the ZeroDivisionError caught by the
enclosing handler, which returns 0 without updating any state. -/
def calc_body (st : KbCpuState) (now : ℚ) (fields : Option (List ℚ)) :
    Int × Bool × List (String × ℚ) × ℚ :=
  if now - st.last_cpu_time ≥ CPU_UPDATE_INTERVAL then
    match fields with
    | none => (0, true, st.last_cpu_stats, st.last_cpu_time)
    | some fs =>
      match fs with
      | f0 :: f1 :: f2 :: idle :: rest =>
        let total := (f0 :: f1 :: f2 :: idle :: rest).sum
        if st.last_cpu_stats ≠ [] then
          let idle_delta := idle - qget st.last_cpu_stats "idle" 0
          let total_delta := total - qget st.last_cpu_stats "total" 0
          if total_delta = 0 then (0, true, st.last_cpu_stats, st.last_cpu_time)
          else (py_trunc ((1 - idle_delta / total_delta) * 100), true,
                [("idle", idle), ("total", total)], now)
        else (0, true, [("idle", idle), ("total", total)], now)
      | _ => (0, true, st.last_cpu_stats, st.last_cpu_time)
  else
    let total_delta := qget st.last_cpu_stats "total_delta" 1
    if total_delta = 0 then (0, false, st.last_cpu_stats, st.last_cpu_time)
    else (py_trunc ((1 - qget st.last_cpu_stats "idle_delta" 0 / total_delta) * 100), false,
          st.last_cpu_stats, st.last_cpu_time)

/-- `_calculate_cpu_utilization` including the `lru_cache(maxsize=1)`
wrapper: a hit returns the stored value without running the body; a miss
runs the body and stores its return value. -/
def calculate_cpu_utilization (st : KbCpuState) (now : ℚ) (fields : Option (List ℚ)) :
    Int × Bool × KbCpuState :=
  match st.lru with
  | some v => (v, false, st)
  | none =>
    let r := calc_body st now fields
    (r.1, r.2.1, ⟨some r.1, r.2.2.1, r.2.2.2⟩)

/-- A sequence of calls; returns the (utilization, statFileRead) pairs in
order and the final state. -/
def run_calculate (st : KbCpuState) :
    List (ℚ × Option (List ℚ)) → List (Int × Bool) × KbCpuState
  | [] => ([], st)
  | (now, fields) :: rest =>
    let r := calculate_cpu_utilization st now fields
    let rr := run_calculate r.2.2 rest
    ((r.1, r.2.1) :: rr.1, rr.2)

/-- The state `KeyboardService.__init__` leaves: empty stats dict, lru
cache empty, `_last_cpu_time = time()` at construction time `t0`. -/
def kb_service_init (t0 : ℚ) : KbCpuState :=
  ⟨none, [], t0⟩

lemma calculate_lru_hit (st : KbCpuState) (v : Int) (now : ℚ)
    (fields : Option (List ℚ)) (h : st.lru = some v) :
    calculate_cpu_utilization st now fields = (v, false, st) := by
  simp [calculate_cpu_utilization, h]

lemma calculate_lru_after (st : KbCpuState) (now : ℚ) (fields : Option (List ℚ)) :
    ((calculate_cpu_utilization st now fields).2.2).lru.isSome := by
  cases hl : st.lru <;> simp [calculate_cpu_utilization, hl]

lemma run_calculate_no_read_of_some (st : KbCpuState) (h : st.lru.isSome)
    (calls : List (ℚ × Option (List ℚ))) :
    (run_calculate st calls).1.countP (fun o => o.2) = 0 := by
  induction calls generalizing st with
  | nil => rfl
  | cons c rest ih =>
    obtain ⟨now, fields⟩ := c
    obtain ⟨v, hv⟩ := Option.isSome_iff_exists.mp h
    rw [run_calculate]
    simp only [calculate_lru_hit st v now fields hv]
    rw [List.countP_cons]
    simp [ih st h]

/-- Claim C8: recomputation is throttled — in any sequence of calls at
most one performs a recomputation (reads the stat file), hence at most one
per CPU_UPDATE_INTERVAL of wall time; and any call made while a previously
computed value is cached (in particular any call within the interval after
a recomputation, which stores its result in the cache) returns exactly
that previous value, without reading the stat file again and without
changing any state. -/
theorem cpu_utilization_recompute_throttled (st : KbCpuState)
    (calls : List (ℚ × Option (List ℚ))) :
    ((run_calculate st calls).1.countP (fun o => o.2) ≤ 1) ∧
    (∀ v now fields, st.lru = some v →
      calculate_cpu_utilization st now fields = (v, false, st)) := by
  refine ⟨?_, fun v now fields h => calculate_lru_hit st v now fields h⟩
  cases calls with
  | nil => simp [run_calculate]
  | cons c rest =>
    obtain ⟨now, fields⟩ := c
    rw [run_calculate, List.countP_cons]
    have hrest : (run_calculate (calculate_cpu_utilization st now fields).2.2 rest).1.countP
        (fun o => o.2) = 0 :=
      run_calculate_no_read_of_some _ (calculate_lru_after st now fields) rest
    simp only [hrest]
    split <;> simp

/-- Witness for C8 at a concrete cached state: with value 7 cached, a call
is not a recomputation and returns 7 without touching the state. -/
theorem cpu_utilization_recompute_throttled_witness :
    ((run_calculate ⟨some 7, [], 0⟩ [(1, none)]).1.countP (fun o => o.2) ≤ 1) ∧
    calculate_cpu_utilization ⟨some 7, [], 0⟩ 1 none = (7, false, ⟨some 7, [], 0⟩) :=
  ⟨(cpu_utilization_recompute_throttled ⟨some 7, [], 0⟩ [(1, none)]).1,
   (cpu_utilization_recompute_throttled ⟨some 7, [], 0⟩ [(1, none)]).2 7 1 none rfl⟩

/-- Claim C7 (code bug): from a fresh service constructed at t = 0, a
first call at t = 1 with a /proc/stat sample having idle = 100,
total = 500 returns 0 (the claim's "first recomputation returns 0" part
holds), but a second call at t = 2 with a sample having idle = 150,
total = 600 (Δidle = 50, Δtotal = 100) also returns 0 — not the 50 the
claim requires — and performs no recomputation at all: the
`lru_cache(maxsize=1)` keyed on the instance returns the first call's
value forever. -/
theorem cpu_utilization_second_sample_not_recomputed :
    (run_calculate (kb_service_init 0)
        [(1, some [100, 150, 150, 100]), (2, some [150, 150, 150, 150])]).1
      = [(0, true), (0, false)] ∧ ((0 : Int) ≠ 50) := by
  have hcall1 : calculate_cpu_utilization (kb_service_init 0) 1 (some [100, 150, 150, 100])
      = (0, true, ⟨some 0, [("idle", 100), ("total", 500)], 1⟩) := by
    norm_num [calculate_cpu_utilization, calc_body, kb_service_init, CPU_UPDATE_INTERVAL]
  have hcall2 : calculate_cpu_utilization ⟨some 0, [("idle", 100), ("total", 500)], 1⟩ 2
      (some [150, 150, 150, 150]) = (0, false, ⟨some 0, [("idle", 100), ("total", 500)], 1⟩) := by
    simp [calculate_cpu_utilization]
  refine ⟨?_, by decide⟩
  rw [run_calculate, run_calculate, run_calculate]
  rw [hcall1]
  simp only []
  rw [hcall2]

/-! ## Control-loop iterations (src/tuf_utils.py lines 89-120, src/services/power.py lines 96-114)

Each loop body is a `while self._running:` containing
`try: body / except Exception: log / finally: sleep`.  An iteration is
modelled by the list of observable events it produces plus whether control
returns to the `while` test afterwards (`true` on every path, because
`except Exception` catches any gateway error).

`_control_keyboard_led` and `auto_fan_control` are `async def`s whose
`finally` does `await asyncio.sleep(interval)` — a real delay, recorded as
`slept`.  `_control_thermal` and `_control_power` are plain synchronous
`def`s whose `finally` calls `asyncio.sleep(interval)` WITHOUT `await`:
that expression merely constructs a coroutine object and discards it, so
no delay occurs; this is recorded as `sleep_coroutine_dropped`. -/

inductive LoopEvent where
  | error_caught : LoopEvent
  | slept (d : ℚ) : LoopEvent
  | sleep_coroutine_dropped (d : ℚ) : LoopEvent
deriving DecidableEq, Repr

/-- One iteration of `TUFUtils._control_thermal` (src/tuf_utils.py lines
101-110); `body_raises` says whether `update_thermal_policy` raised. -/
def control_thermal_iteration (body_raises : Bool) : List LoopEvent × Bool :=
  ((if body_raises then [LoopEvent.error_caught] else []) ++
    [LoopEvent.sleep_coroutine_dropped BATTERY_POLL_INTERVAL], true)

/-- One iteration of `TUFUtils._control_power` (src/tuf_utils.py lines
112-120). -/
def control_power_iteration (body_raises : Bool) : List LoopEvent × Bool :=
  ((if body_raises then [LoopEvent.error_caught] else []) ++
    [LoopEvent.sleep_coroutine_dropped FAN_UPDATE_INTERVAL], true)

/-- One iteration of the async `TUFUtils._control_keyboard_led`
(src/tuf_utils.py lines 89-99); its `finally` awaits the sleep, whose
interval depends on `is_dimmed`. -/
def control_keyboard_led_iteration (body_raises is_dimmed : Bool) : List LoopEvent × Bool :=
  ((if body_raises then [LoopEvent.error_caught] else []) ++
    [LoopEvent.slept (if is_dimmed then CHARGER_POLL_INTERVAL else BATTERY_POLL_INTERVAL)], true)

/-- One iteration of the async `PowerService.auto_fan_control` loop
(src/services/power.py lines 96-114); its `finally` awaits the sleep. -/
def auto_fan_control_iteration (body_raises : Bool) : List LoopEvent × Bool :=
  ((if body_raises then [LoopEvent.error_caught] else []) ++
    [LoopEvent.slept FAN_UPDATE_INTERVAL], true)

/-- An event is an actual delay. -/
def isSleepEvent : LoopEvent → Bool
  | .slept _ => true
  | _ => false

/-- Claim C9 (code bug), evaluated at a failing iteration: in the thermal
and power loops an iteration whose body raises does catch the error and
return to the loop (the containment half of the claim holds, and the
async fan and keyboard loops do sleep on the guaranteed path), but the
"periodic sleep for its configured interval is executed" half fails for
the thermal and power loops: their `finally` drops an un-awaited
`asyncio.sleep` coroutine, so no sleep event occurs in any iteration. -/
theorem control_loop_sleep_not_executed :
    (control_thermal_iteration true).2 = true ∧
    (control_thermal_iteration true).1 =
      [LoopEvent.error_caught, LoopEvent.sleep_coroutine_dropped BATTERY_POLL_INTERVAL] ∧
    (control_power_iteration true).1 =
      [LoopEvent.error_caught, LoopEvent.sleep_coroutine_dropped FAN_UPDATE_INTERVAL] ∧
    (control_thermal_iteration true).1.all (fun e => ¬isSleepEvent e) = true ∧
    (control_power_iteration true).1.all (fun e => ¬isSleepEvent e) = true ∧
    (control_thermal_iteration false).1.all (fun e => ¬isSleepEvent e) = true ∧
    (auto_fan_control_iteration true).1 =
      [LoopEvent.error_caught, LoopEvent.slept FAN_UPDATE_INTERVAL] ∧
    (control_keyboard_led_iteration true false).1 =
      [LoopEvent.error_caught, LoopEvent.slept BATTERY_POLL_INTERVAL] := by
  refine ⟨rfl, rfl, rfl, ?_, ?_, ?_, rfl, rfl⟩ <;> rfl
